import Mathlib

/-!
Verification of the su-style authentication/execution pipeline and the
terminal-state machinery of this repository (src/su/mod.rs and
sudo/lib/system/term/ops.rs), as a shallow embedding in Lean.

Effectful calls (PAM module calls, syscalls) are modelled by passing their
result sequences explicitly; the control flow of each embedded function
mirrors the source line by line.
-/

namespace Su

/-- Result of one `pam.authenticate()` call, as classified by the `match`
in `authenticate` (src/su/mod.rs lines 33-56): success, the PAM
`MaxTries` error, the PAM `AuthError` error, or any other PAM error
(carrying an identity so that propagation can be observed). -/
inductive PamResult
  | ok
  | maxTries
  | authError
  | otherError (id : Nat)
deriving DecidableEq, Repr

/-- Observable outcome of the retry loop in `authenticate`
(src/su/mod.rs lines 28-57): success records the value of `current_try`
when the loop broke and the number of `user_warn!` emissions; `exhausted`
is `Error::MaxAuthAttempts(current_try)`; `otherFailure` is the
propagated other PAM error together with `current_try`; `noMoreResults`
is a model artifact for an input sequence shorter than the loop
consumes. -/
inductive AuthOutcome
  | success (attempts : Nat) (warnings : Nat)
  | exhausted (attempts : Nat)
  | otherFailure (id : Nat) (attempts : Nat)
  | noMoreResults (attempts : Nat) (warnings : Nat)
deriving DecidableEq, Repr

/-- The `loop` of `authenticate` (src/su/mod.rs lines 31-57), with the
mutable locals `max_tries` and `current_try` threaded explicitly, plus a
counter of `user_warn!` emissions. -/
def authLoop : List PamResult → Nat → Nat → Nat → AuthOutcome
  | [], _, currentTry, warnings => .noMoreResults currentTry warnings
  | r :: rest, maxTries, currentTry, warnings =>
    let ct := currentTry + 1
    match r with
    | .ok => .success ct warnings
    | .maxTries => .exhausted ct
    | .authError =>
      let mt := maxTries - 1
      if mt = 0 then .exhausted ct
      else authLoop rest mt ct (warnings + 1)
    | .otherError id => .otherFailure id ct

/-- `authenticate` (src/su/mod.rs): `max_tries` starts at 3 and
`current_try` at 0. The builder/set-user preamble and the
validate/open-session epilogue are sequenced in `run`'s model. -/
def authenticate (results : List PamResult) : AuthOutcome :=
  authLoop results 3 0 0

end Su

namespace Term

/-!
Embedding of sudo/lib/system/term/ops.rs. The termios flag constants
carry their Linux (glibc) numeric values, as imported from `libc` by the
source. `tcflag_t` is `u32`; the embedded fields are `Nat` and the
source's `&= !MASK` is `&&& u32not MASK`.
-/

def IGNBRK : Nat := 0o1
def BRKINT : Nat := 0o2
def IGNPAR : Nat := 0o4
def PARMRK : Nat := 0o10
def INPCK : Nat := 0o20
def ISTRIP : Nat := 0o40
def INLCR : Nat := 0o100
def IGNCR : Nat := 0o200
def ICRNL : Nat := 0o400
def IXON : Nat := 0o2000
def IXANY : Nat := 0o4000
def IXOFF : Nat := 0o10000
def IMAXBEL : Nat := 0o20000
def IUTF8 : Nat := 0o40000

def OPOST : Nat := 0o1
def OLCUC : Nat := 0o2
def ONLCR : Nat := 0o4
def OCRNL : Nat := 0o10
def ONOCR : Nat := 0o20
def ONLRET : Nat := 0o40

def CSIZE : Nat := 0o60
def CS7 : Nat := 0o40
def CS8 : Nat := 0o60
def PARENB : Nat := 0o400
def PARODD : Nat := 0o1000

def ISIG : Nat := 0o1
def ICANON : Nat := 0o2
def ECHO : Nat := 0o10
def ECHOE : Nat := 0o20
def ECHOK : Nat := 0o40
def ECHONL : Nat := 0o100
def NOFLSH : Nat := 0o200
def TOSTOP : Nat := 0o400
def ECHOCTL : Nat := 0o1000
def ECHOKE : Nat := 0o4000
def PENDIN : Nat := 0o40000
def IEXTEN : Nat := 0o100000

def B0 : Nat := 0
def B38400 : Nat := 0o17
def VTIME : Nat := 5
def VMIN : Nat := 6

/-- `INPUT_FLAGS` (ops.rs lines 23-35). -/
def INPUT_FLAGS : Nat :=
  IGNPAR ||| PARMRK ||| INPCK ||| ISTRIP ||| INLCR ||| IGNCR ||| ICRNL |||
  IXON ||| IXANY ||| IXOFF ||| IMAXBEL ||| IUTF8

/-- `OUTPUT_FLAGS` (ops.rs line 36). -/
def OUTPUT_FLAGS : Nat := OPOST ||| OLCUC ||| ONLCR ||| OCRNL ||| ONOCR ||| ONLRET

/-- `CONTROL_FLAGS` (ops.rs line 37). -/
def CONTROL_FLAGS : Nat := CS7 ||| CS8 ||| PARENB ||| PARODD

/-- `LOCAL_FLAGS` (ops.rs lines 38-50). -/
def LOCAL_FLAGS : Nat :=
  ISIG ||| ICANON ||| ECHO ||| ECHOE ||| ECHOK ||| ECHONL ||| NOFLSH |||
  TOSTOP ||| IEXTEN ||| ECHOCTL ||| ECHOKE ||| PENDIN

/-- Bitwise complement on a 32-bit flag word (`!mask` on `tcflag_t`). -/
def u32not (m : Nat) : Nat := 0xFFFFFFFF ^^^ m

/-- `libc::termios`: the four mode-bit groups, the control-character
vector, and the input/output speeds (accessed in the source only via
`cfgetispeed`/`cfgetospeed`/`cfsetispeed`/`cfsetospeed`). -/
structure Termios where
  c_iflag : Nat
  c_oflag : Nat
  c_cflag : Nat
  c_lflag : Nat
  c_cc : List Nat
  c_ispeed : Nat
  c_ospeed : Nat
deriving DecidableEq, Repr

/-- A terminal's attribute set plus its window size (rows, cols), the
state `term_copy` reads and writes. -/
structure TermScreen where
  attrs : Termios
  wsize : Nat × Nat
deriving DecidableEq, Repr

/-- The attribute transform of `term_copy` (ops.rs lines 118-143):
clear the selected flag groups in the destination, merge in the
source's bits of those groups, copy the control characters verbatim,
and copy the speeds from the source, coercing a zero output speed
(`B0`, hang-up) to `B38400`. -/
def term_copy_attrs (tt_src tt_dst : Termios) : Termios :=
  let d := { tt_dst with
    c_iflag := tt_dst.c_iflag &&& u32not INPUT_FLAGS,
    c_oflag := tt_dst.c_oflag &&& u32not OUTPUT_FLAGS,
    c_cflag := tt_dst.c_cflag &&& u32not CONTROL_FLAGS,
    c_lflag := tt_dst.c_lflag &&& u32not LOCAL_FLAGS }
  let d := { d with
    c_iflag := d.c_iflag ||| (tt_src.c_iflag &&& INPUT_FLAGS),
    c_oflag := d.c_oflag ||| (tt_src.c_oflag &&& OUTPUT_FLAGS),
    c_cflag := d.c_cflag ||| (tt_src.c_cflag &&& CONTROL_FLAGS),
    c_lflag := d.c_lflag ||| (tt_src.c_lflag &&& LOCAL_FLAGS) }
  let d := { d with c_cc := tt_src.c_cc }
  let speed := if tt_src.c_ospeed = B0 then B38400 else tt_src.c_ospeed
  { d with c_ospeed := speed, c_ispeed := tt_src.c_ispeed }

/-- `term_copy` (ops.rs lines 104-151) on the terminal data: the
destination receives the transformed attributes (written through
`tcsetattr_nobg` with `TCSAFLUSH`) and the source's window size (the
`TIOCGWINSZ`/`TIOCSWINSZ` ioctl pair). -/
def term_copy (src dst : TermScreen) : TermScreen :=
  ⟨term_copy_attrs src.attrs dst.attrs, src.wsize⟩

/-- Error class of one failed `tcsetattr` call: `interrupted` is
`io::ErrorKind::Interrupted` (EINTR); `other` is any other errno,
carrying an identity. -/
inductive ErrKind
  | interrupted
  | other (id : Nat)
deriving DecidableEq, Repr

/-- One iteration's environment in the `tcsetattr` retry loop of
`tcsetattr_nobg`: whether SIGTTOU was delivered during the call (the
installed `on_sigttou` handler then stores `true` into `GOT_SIGTTOU`),
and the call's result (`none` = success). -/
structure Attempt where
  sigttou : Bool
  res : Option ErrKind
deriving DecidableEq, Repr

/-- Result of the retry loop: `failure` records the returned error's
kind and the value of `GOT_SIGTTOU` at the return; `incomplete` is a
model artifact for an attempt sequence shorter than the loop consumes. -/
inductive SetattrOutcome
  | success
  | failure (kind : ErrKind) (gotSigttou : Bool)
  | incomplete
deriving DecidableEq, Repr

/-- The `loop` of `tcsetattr_nobg` (ops.rs lines 86-96), with
`GOT_SIGTTOU` threaded explicitly: it was stored `false` before the
loop, is set by any delivery, and is loaded in the error branch;
`return Err(err)` fires when the flag is set or the error kind is not
`Interrupted`, otherwise the syscall is retried. -/
def setattrLoop (gotSigttou : Bool) : List Attempt → SetattrOutcome
  | [] => .incomplete
  | a :: rest =>
    let got := gotSigttou || a.sigttou
    match a.res with
    | none => .success
    | some k =>
      if got || k ≠ .interrupted then .failure k got
      else setattrLoop got rest

/-- The process's SIGTTOU disposition: the action installed before
`tcsetattr_nobg` ran (whatever it was, named by an identity), or the
temporary `on_sigttou` hook. -/
inductive SigHandler
  | previous (id : Nat)
  | sigttouHook
deriving DecidableEq, Repr

/-- `tcsetattr_nobg` (ops.rs lines 62-101): install `on_sigttou`
(saving the previous action in `original_action`), clear `GOT_SIGTTOU`,
run the retry loop, and restore the saved action only after the loop
breaks with success — the `return Err(err)` inside the loop leaves
`on_sigttou` installed. Returns the outcome and the SIGTTOU action in
force when the function returns. -/
def tcsetattr_nobg (prev : SigHandler) (attempts : List Attempt) :
    SetattrOutcome × SigHandler :=
  match setattrLoop false attempts with
  | .success => (.success, prev)
  | .failure k g => (.failure k g, .sigttouHook)
  | .incomplete => (.incomplete, .sigttouHook)

/-- `libc::cfmakeraw` (an external collaborator, modelled from its
documented glibc behavior): clear break/parity/CR-mapping/flow-control
input processing, output post-processing, echo/canonical/signal
generation in the local modes; force 8-bit characters without parity;
set `VMIN` to 1 and `VTIME` to 0. -/
def cfmakeraw (t : Termios) : Termios :=
  { t with
    c_iflag := t.c_iflag &&&
      u32not (IGNBRK ||| BRKINT ||| PARMRK ||| ISTRIP ||| INLCR ||| IGNCR ||| ICRNL ||| IXON),
    c_oflag := t.c_oflag &&& u32not OPOST,
    c_lflag := t.c_lflag &&& u32not (ECHO ||| ECHONL ||| ICANON ||| ISIG ||| IEXTEN),
    c_cflag := (t.c_cflag &&& u32not (CSIZE ||| PARENB)) ||| CS8,
    c_cc := (t.c_cc.set VMIN 1).set VTIME 0 }

/-- The attributes `term_raw` (ops.rs lines 160-167) builds and hands
to `tcsetattr_nobg`: `cfmakeraw` of the saved snapshot, then — if
signals were requested — `term.c_cflag |= ISIG` exactly as the source
writes it (note: `c_cflag`, the control flags, not `c_lflag`). -/
def term_raw_attrs (t : Termios) (with_signals : Bool) : Termios :=
  let term := cfmakeraw t
  if with_signals then { term with c_cflag := term.c_cflag ||| ISIG } else term

/-- The process-wide snapshot slot: `CHANGED` and `OTERM` (ops.rs lines
53-54); `oterm = none` models the uninitialized `MaybeUninit`. -/
structure TermState where
  changed : Bool
  oterm : Option Termios
deriving DecidableEq, Repr

/-- Errors surfaced by `term_raw`/`term_restore`: a failed `tcgetattr`
(with its errno), a failure from `tcsetattr_nobg`, or the model
artifact for an exhausted attempt sequence (also used for the
unreachable read of an uninitialized `OTERM`). -/
inductive TermErr
  | getattrFailed (e : Nat)
  | setattrFailed (k : ErrKind) (g : Bool)
  | incomplete
deriving DecidableEq, Repr

/-- Shared tail of `term_raw` (ops.rs lines 160-172): build the raw
attributes from the snapshot value `t`, apply them via `tcsetattr_nobg`
(`TCSADRAIN`), and store `true` into `CHANGED` on success. The third
component lists the attribute sets handed to `tcsetattr` (the terminal
mutations attempted). -/
def term_raw_apply (st : TermState) (t : Termios) (attempts : List Attempt)
    (with_signals : Bool) : TermState × Except TermErr Unit × List Termios :=
  let term := term_raw_attrs t with_signals
  match setattrLoop false attempts with
  | .success => (⟨true, st.oterm⟩, .ok (), [term])
  | .failure k g => (st, .error (.setattrFailed k g), [term])
  | .incomplete => (st, .error .incomplete, [term])

/-- `term_raw` (ops.rs lines 154-173): when `CHANGED` is clear,
`tcgetattr` captures the current attributes into `OTERM` (a failure
returns before any mutation); the snapshot value is then transformed
and applied. When `CHANGED` is set, the getattr result is never
consulted and the stored snapshot is reused. -/
def term_raw (st : TermState) (getattr : Except Nat Termios)
    (attempts : List Attempt) (with_signals : Bool) :
    TermState × Except TermErr Unit × List Termios :=
  if st.changed then
    match st.oterm with
    | none => (st, .error .incomplete, [])
    | some t => term_raw_apply st t attempts with_signals
  else
    match getattr with
    | .error e => (st, .error (.getattrFailed e), [])
    | .ok t => term_raw_apply ⟨false, some t⟩ t attempts with_signals

/-- `term_restore` (ops.rs lines 179-187): a no-op returning `Ok` when
`CHANGED` is clear; otherwise reapply the stored snapshot through
`tcsetattr_nobg` (`flush` only selects `TCSAFLUSH` vs `TCSADRAIN`).
`CHANGED` is never written. -/
def term_restore (st : TermState) (attempts : List Attempt) (flush : Bool) :
    TermState × Except TermErr Unit × List Termios :=
  if st.changed then
    match st.oterm with
    | none => (st, .error .incomplete, [])
    | some t =>
      match setattrLoop false attempts with
      | .success => (st, .ok (), [t])
      | .failure k g => (st, .error (.setattrFailed k g), [t])
      | .incomplete => (st, .error .incomplete, [t])
  else (st, .ok (), [])

/-- One call into the raw-mode controller, carrying the results of the
syscalls it would perform. -/
inductive TermOp
  | raw (getattr : Except Nat Termios) (attempts : List Attempt) (with_signals : Bool)
  | restore (attempts : List Attempt) (flush : Bool)

/-- Dispatch one operation against the snapshot slot. -/
def termStep (st : TermState) : TermOp → TermState × Except TermErr Unit × List Termios
  | .raw g a w => term_raw st g a w
  | .restore a f => term_restore st a f

/-- Run a sequence of operations, threading the slot state. -/
def termTrace (st : TermState) : List TermOp → TermState
  | [] => st
  | op :: ops => termTrace (termStep st op).1 ops

/-- The slot at process start: `CHANGED == false`, `OTERM` uninit. -/
def initialTermState : TermState := ⟨false, none⟩

end Term

namespace Su

/-- C4 sanity check values are proved in the claim theorem below. -/
theorem authLoop_three_mismatches :
    authenticate [.authError, .authError, .authError] = .exhausted 3 := by
  decide

/-- **C4.** For the retry budget 3 and any sequence of `k < 3` credential
mismatches followed by a success, `authenticate` succeeds at attempt
count `k + 1 ≤ 3` having warned exactly `k ≤ 2` times; and three
consecutive mismatches yield `Error::MaxAuthAttempts` with attempt count
exactly 3. -/
theorem authenticate_retry_budget (k : Nat) (h : k < 3) :
    authenticate (List.replicate k .authError ++ [.ok]) = .success (k + 1) k ∧
    k ≤ 3 - 1 ∧ k + 1 ≤ 3 ∧
    authenticate (List.replicate 3 .authError) = .exhausted 3 := by
  interval_cases k <;> exact ⟨by decide, by decide, by decide, by decide⟩

/-- Witness for C4 at `k = 2`. -/
theorem authenticate_retry_budget_witness :
    authenticate (List.replicate 2 .authError ++ [.ok]) = .success 3 2 ∧
    2 ≤ 3 - 1 ∧ 3 ≤ 3 ∧
    authenticate (List.replicate 3 .authError) = .exhausted 3 :=
  authenticate_retry_budget 2 (by decide)

/-- **C5.** `authenticate` returns `Error::MaxAuthAttempts` (exhaustion)
iff the module signalled `MaxTries` on some attempt, or three
`AuthError` results drove the local `max_tries` budget to zero; and any
other module error makes it fail on that very attempt — after `j ≤ 2`
retried mismatches, an other-class error at attempt `j + 1` yields that
error's own identity at attempt count `j + 1`, whatever results would
have followed (so nothing after it is retried or even consulted).
Conversely, an other-error outcome only arises that way. -/
theorem authenticate_exhausted_iff (results : List PamResult) (j : Nat) (id : Nat)
    (rest : List PamResult) :
    ((∃ n, authenticate results = .exhausted n) ↔
      (results[0]? = some .maxTries ∨
       (results[0]? = some .authError ∧ results[1]? = some .maxTries) ∨
       (results[0]? = some .authError ∧ results[1]? = some .authError ∧
         (results[2]? = some .maxTries ∨ results[2]? = some .authError)))) ∧
    (j ≤ 2 →
      authenticate (List.replicate j .authError ++ .otherError id :: rest) =
        .otherFailure id (j + 1)) ∧
    (∀ i n, authenticate results = .otherFailure i n →
      (n = 1 ∧ results[0]? = some (.otherError i)) ∨
      (n = 2 ∧ results[0]? = some .authError ∧ results[1]? = some (.otherError i)) ∨
      (n = 3 ∧ results[0]? = some .authError ∧ results[1]? = some .authError ∧
        results[2]? = some (.otherError i))) := by
  refine ⟨?_, ?_, ?_⟩
  · rcases results with _ | ⟨r0, _ | ⟨r1, _ | ⟨r2, rest'⟩⟩⟩ <;>
      (try cases r0) <;> (try cases r1) <;> (try cases r2) <;>
      simp [authenticate, authLoop]
  · intro hj
    interval_cases j <;> simp [authenticate, authLoop]
  · rcases results with _ | ⟨r0, _ | ⟨r1, _ | ⟨r2, rest'⟩⟩⟩ <;>
      (try cases r0) <;> (try cases r1) <;> (try cases r2) <;>
      simp [authenticate, authLoop]

/-- Witness for C5: exhaustion from a single `MaxTries`; an other-error
right after one retried mismatch fails there with identity 7 at attempt
2 even though a success was queued next; and the converse at the same
input. -/
theorem authenticate_exhausted_iff_witness :
    (∃ n, authenticate [PamResult.maxTries] = .exhausted n) ∧
    authenticate (List.replicate 1 .authError ++ .otherError 7 :: [.ok]) =
      .otherFailure 7 (1 + 1) ∧
    ((2 : Nat) = 1 ∧ [PamResult.authError, .otherError 7][0]? = some (.otherError 7) ∨
     (2 : Nat) = 2 ∧ [PamResult.authError, .otherError 7][0]? = some .authError ∧
       [PamResult.authError, .otherError 7][1]? = some (.otherError 7) ∨
     (2 : Nat) = 3 ∧ [PamResult.authError, .otherError 7][0]? = some .authError ∧
       [PamResult.authError, .otherError 7][1]? = some .authError ∧
       [PamResult.authError, .otherError 7][2]? = some (.otherError 7)) :=
  ⟨(authenticate_exhausted_iff [.maxTries] 0 0 []).1.mpr (Or.inl rfl),
   (authenticate_exhausted_iff [.maxTries] 1 7 [.ok]).2.1 (by decide),
   (authenticate_exhausted_iff [.authError, .otherError 7] 0 0 []).2.2 7 2 rfl⟩

/-- The `Error` enum of `crate::common::error`, restricted to the
constructors `main`/`run` pattern-match on or construct in
src/su/mod.rs: `CommandNotFound`, `InvalidCommand`, `MaxAuthAttempts`,
and a bucket for every other variant (the `Err(e)` fallthrough arm). -/
inductive Error
  | commandNotFound (c : String)
  | invalidCommand (c : String)
  | maxAuthAttempts (n : Nat)
  | other (id : Nat)
deriving DecidableEq, Repr

/-- `ExitReason` from `crate::exec` (src/su/mod.rs lines 85-90 match on
its two constructors). -/
inductive ExitReason
  | code (c : Int)
  | signal (s : Nat)
deriving DecidableEq, Repr

/-- Observable side effects of `run`, in program order:
`closeSession` is the `pam.close_session()` attempt (recording whether
that attempt itself failed, since `run` discards the result);
`emulateHandler` is the `emulate_default_handler()` call; `killSelf` is
`crate::system::kill(pid, signal)`. -/
inductive Event
  | closeSession (failed : Bool)
  | emulateHandler
  | killSelf (pid : Nat) (signal : Nat)
deriving DecidableEq, Repr

/-- How control leaves `run`: `exitProcess c` is `process::exit(c)`
(the process finalizes inside `run`), `ok` is `Ok(())`, `error e` is an
early `Err(e)` return. -/
inductive RunOutcome
  | exitProcess (c : Int)
  | ok
  | error (e : Error)
deriving DecidableEq, Repr

/-- Results of the effectful calls `run` makes, passed in explicitly:
`SuContext::from_env`, the whole `authenticate` call (build, set_user,
retry loop, validate, open_session), `crate::exec::run_command`,
`pam.close_session()` (only its failure bit — `run` discards it), and
`crate::system::kill`. `pid` is `context.process.pid`. -/
structure RunEnv where
  fromEnv : Except Error Unit
  auth : Except Error Unit
  pid : Nat
  runCommand : Except Error ExitReason
  closeFails : Bool
  kill : Except Error Unit
deriving Repr

/-- `run` (src/su/mod.rs lines 65-93): the returned trace lists the side
effects in the order the source performs them. -/
def run (env : RunEnv) : RunOutcome × List Event :=
  match env.fromEnv with
  | .error e => (.error e, [])
  | .ok _ =>
    match env.auth with
    | .error e => (.error e, [])
    | .ok _ =>
      match env.runCommand with
      | .error e => (.error e, [])
      | .ok reason =>
        -- `let _ = pam.close_session();` — attempted, result discarded
        let tr := [Event.closeSession env.closeFails, Event.emulateHandler]
        match reason with
        | .code c => (.exitProcess c, tr)
        | .signal s =>
          match env.kill with
          | .error e => (.error e, tr ++ [Event.killSelf env.pid s])
          | .ok _ => (.ok, tr ++ [Event.killSelf env.pid s])

/-- Whether an event is the session-close attempt. -/
def Event.isClose : Event → Bool
  | .closeSession _ => true
  | _ => false

/-- What `main` (src/su/mod.rs lines 107-121) does with `run`'s result
in the `SuAction::Run` arm: the diagnostic lines printed and the process
exit status. `disp` is the `Display` rendering of `Error` (defined
outside this core); the `su: ` prefix is literal in the source. A
`RunOutcome.ok` falls through the match, `main` returns, and the
process exits 0. -/
structure MainResult where
  stderr : List String
  exitCode : Int
deriving DecidableEq, Repr

def mainRun (disp : Error → String) (env : RunEnv) : MainResult :=
  match (run env).1 with
  | .exitProcess c => ⟨[], c⟩
  | .ok => ⟨[], 0⟩
  | .error e =>
    match e with
    | .commandNotFound c => ⟨["su: " ++ disp (.commandNotFound c)], 127⟩
    | .invalidCommand c => ⟨["su: " ++ disp (.invalidCommand c)], 126⟩
    | e => ⟨["su: " ++ disp e], 1⟩

/-- The exit code §4.2 of the spec assigns to each orchestration
failure (written from the spec's words, for comparison with `mainRun`):
`CommandNotFound` → 127, `InvalidCommand` → 126, all else → 1. -/
def specExitCode : Error → Int
  | .commandNotFound _ => 127
  | .invalidCommand _ => 126
  | _ => 1

/-- **C1.** Whenever authentication succeeded and `run_command` handed
back an `ExitReason` (either constructor — command exited with any code
or died by signal), `run` attempts `close_session` exactly once, as the
first effect after `run_command` (hence before `process::exit` or
return, i.e. before the process finalizes), and the close attempt's own
failure bit never alters `run`'s outcome. -/
theorem run_closes_session_once (env : RunEnv) (r : ExitReason) (b : Bool)
    (h1 : env.fromEnv = .ok ()) (h2 : env.auth = .ok ())
    (h3 : env.runCommand = .ok r) :
    (run env).2.countP Event.isClose = 1 ∧
    (run env).2.head? = some (.closeSession env.closeFails) ∧
    (run { env with closeFails := b }).1 = (run env).1 := by
  obtain ⟨fe, au, pid, rc, cf, k⟩ := env
  dsimp only at h1 h2 h3 ⊢
  subst h1 h2 h3
  cases r <;> cases k <;>
    simp [run, List.countP, List.countP.go, Event.isClose]

/-- Witness for C1: command exits with code 5, close fails, outcome
unchanged. -/
theorem run_closes_session_once_witness :
    (run ⟨.ok (), .ok (), 42, .ok (.code 5), true, .ok ()⟩).2.countP Event.isClose = 1 ∧
    (run ⟨.ok (), .ok (), 42, .ok (.code 5), true, .ok ()⟩).2.head? =
      some (.closeSession (RunEnv.mk (.ok ()) (.ok ()) 42 (.ok (.code 5)) true (.ok ())).closeFails) ∧
    (run { RunEnv.mk (.ok ()) (.ok ()) 42 (.ok (.code 5)) true (.ok ()) with closeFails := false }).1 =
      (run ⟨.ok (), .ok (), 42, .ok (.code 5), true, .ok ()⟩).1 :=
  run_closes_session_once ⟨.ok (), .ok (), 42, .ok (.code 5), true, .ok ()⟩ (.code 5) false rfl rfl rfl

/-- **C7.** When `run` fails, `main` prints the error's message once to
stderr prefixed by the program name (`su: `), and exits with 127 for
`CommandNotFound`, 126 for `InvalidCommand`, and 1 for every other
error. -/
theorem main_error_exit_codes (disp : Error → String) (env : RunEnv) (e : Error)
    (h : (run env).1 = .error e) :
    (mainRun disp env).stderr = ["su: " ++ disp e] ∧
    (mainRun disp env).exitCode = specExitCode e := by
  cases e <;> simp [mainRun, h, specExitCode]

/-- Witness for C7 with a `CommandNotFound` failure from context
resolution. -/
theorem main_error_exit_codes_witness :
    (mainRun (fun _ => "nf") ⟨.error (.commandNotFound "c"), .ok (), 0, .ok (.code 0), false, .ok ()⟩).stderr =
      ["su: " ++ (fun _ : Error => "nf") (.commandNotFound "c")] ∧
    (mainRun (fun _ => "nf") ⟨.error (.commandNotFound "c"), .ok (), 0, .ok (.code 0), false, .ok ()⟩).exitCode =
      specExitCode (.commandNotFound "c") :=
  main_error_exit_codes (fun _ => "nf")
    ⟨.error (.commandNotFound "c"), .ok (), 0, .ok (.code 0), false, .ok ()⟩
    (.commandNotFound "c") rfl

/-- **C10.** If the command died by a signal and re-delivering that
signal to this process does not terminate it (the `kill` call returns
`Ok`), `run` returns `Ok(())`, so `main` falls through its match and
the process exits with status 0 printing nothing. -/
theorem run_signal_survived_exits_zero (disp : Error → String) (env : RunEnv) (s : Nat)
    (h1 : env.fromEnv = .ok ()) (h2 : env.auth = .ok ())
    (h3 : env.runCommand = .ok (.signal s)) (h4 : env.kill = .ok ()) :
    (run env).1 = .ok ∧
    (mainRun disp env).exitCode = 0 ∧
    (mainRun disp env).stderr = [] := by
  obtain ⟨fe, au, pid, rc, cf, k⟩ := env
  dsimp only at h1 h2 h3 h4
  subst h1 h2 h3 h4
  simp [run, mainRun]

/-- Witness for C10 at signal 9. -/
theorem run_signal_survived_exits_zero_witness :
    (run ⟨.ok (), .ok (), 42, .ok (.signal 9), false, .ok ()⟩).1 = .ok ∧
    (mainRun (fun _ => "") ⟨.ok (), .ok (), 42, .ok (.signal 9), false, .ok ()⟩).exitCode = 0 ∧
    (mainRun (fun _ => "") ⟨.ok (), .ok (), 42, .ok (.signal 9), false, .ok ()⟩).stderr = [] :=
  run_signal_survived_exits_zero (fun _ => "")
    ⟨.ok (), .ok (), 42, .ok (.signal 9), false, .ok ()⟩ 9 rfl rfl rfl rfl

end Su

namespace Term

/-- Clearing a bit group then merging in the source's bits of another
group is idempotent in the destination argument. -/
theorem merge_masked_idem (d s n m : Nat) :
    (((d &&& n) ||| (s &&& m)) &&& n) ||| (s &&& m) = (d &&& n) ||| (s &&& m) := by
  apply Nat.eq_of_testBit_eq
  intro i
  simp only [Nat.testBit_lor, Nat.testBit_land]
  cases d.testBit i <;> cases s.testBit i <;> cases n.testBit i <;> cases m.testBit i <;> rfl

/-- **C9.** Terminal-settings copying is idempotent on the copied
subset: copying A→B twice with A unchanged leaves the destination
exactly as one copy does (mode-bit groups, control characters, speeds,
window size). -/
theorem term_copy_idempotent (src dst : TermScreen) :
    term_copy src (term_copy src dst) = term_copy src dst := by
  obtain ⟨⟨si, so, sc, sl, scc, sis, sos⟩, sw⟩ := src
  obtain ⟨⟨di, dof, dc, dl, dcc, dis, dos⟩, dw⟩ := dst
  simp [term_copy, term_copy_attrs, merge_masked_idem]

/-- A plain-EINTR attempt (no SIGTTOU) is transparent to the retry
loop. -/
theorem setattrLoop_replicate_eintr (n : Nat) (rest : List Attempt) :
    setattrLoop false (List.replicate n ⟨false, some .interrupted⟩ ++ rest) =
      setattrLoop false rest := by
  induction n with
  | zero => rfl
  | succ n ih => simpa [List.replicate_succ, setattrLoop] using ih

/-- The loop surfaces an `Interrupted`-kind error only with the
`GOT_SIGTTOU` flag set: a plain EINTR is always retried. -/
theorem setattrLoop_interrupted_escape (attempts : List Attempt) (got g : Bool)
    (h : setattrLoop got attempts = .failure .interrupted g) : g = true := by
  induction attempts generalizing got with
  | nil => simp [setattrLoop] at h
  | cons a rest ih =>
    obtain ⟨sg, res⟩ := a
    cases res with
    | none => simp [setattrLoop] at h
    | some k =>
      simp only [setattrLoop] at h
      split at h
      · rename_i hcond
        injection h with h1 h2
        subst h1
        subst h2
        simpa using hcond
      · exact ih _ h

/-- **C8.** An attribute-set interrupted by a signal other than the
stop signal is retried (any number of plain-EINTR attempts are
transparent); one interrupted while SIGTTOU arrived fails right there,
without consulting later attempts; and an `Interrupted`-kind failure
escapes the setter only when SIGTTOU was received (ordinary I/O
failures surface with another kind), so the caller can tell them
apart. -/
theorem tcsetattr_nobg_retry_policy (prev : SigHandler) (attempts rest : List Attempt)
    (n : Nat) (g : Bool) :
    tcsetattr_nobg prev (List.replicate n ⟨false, some .interrupted⟩ ++ rest) =
      tcsetattr_nobg prev rest ∧
    (tcsetattr_nobg prev (⟨true, some .interrupted⟩ :: rest)).1 =
      .failure .interrupted true ∧
    ((tcsetattr_nobg prev attempts).1 = .failure .interrupted g → g = true) := by
  refine ⟨?_, ?_, ?_⟩
  · unfold tcsetattr_nobg
    rw [setattrLoop_replicate_eintr]
  · simp [tcsetattr_nobg, setattrLoop]
  · intro h
    unfold tcsetattr_nobg at h
    cases hl : setattrLoop false attempts with
    | success => rw [hl] at h; simp at h
    | incomplete => rw [hl] at h; simp at h
    | failure k got =>
      rw [hl] at h
      simp only at h
      injection h with h1 h2
      subst h1
      subst h2
      exact setattrLoop_interrupted_escape attempts false _ hl

/-- Witness for C8: two transparent retries before a success; an
immediate distinct failure on SIGTTOU. -/
theorem tcsetattr_nobg_retry_policy_witness :
    tcsetattr_nobg (.previous 0)
        (List.replicate 2 ⟨false, some .interrupted⟩ ++ [⟨false, none⟩]) =
      tcsetattr_nobg (.previous 0) [⟨false, none⟩] ∧
    (tcsetattr_nobg (.previous 0) (⟨true, some .interrupted⟩ :: [⟨false, none⟩])).1 =
      .failure .interrupted true ∧
    (true : Bool) = true :=
  ⟨(tcsetattr_nobg_retry_policy (.previous 0) [⟨true, some .interrupted⟩] [⟨false, none⟩] 2 true).1,
   (tcsetattr_nobg_retry_policy (.previous 0) [⟨true, some .interrupted⟩] [⟨false, none⟩] 2 true).2.1,
   (tcsetattr_nobg_retry_policy (.previous 0) [⟨true, some .interrupted⟩] [⟨false, none⟩] 2 true).2.2
     (by decide)⟩

/-- **C2 counterexample.** When the syscall fails outright (an ordinary
error on the first attempt, no SIGTTOU), `tcsetattr_nobg` returns the
failure from inside the loop with the temporary `on_sigttou` action
still installed: the previously installed handler is not restored on
the failure path, contrary to the claim. -/
theorem tcsetattr_nobg_no_restore_on_failure :
    (tcsetattr_nobg (.previous 0) [⟨false, some (.other 9)⟩]).1 =
      .failure (.other 9) false ∧
    ¬ (tcsetattr_nobg (.previous 0) [⟨false, some (.other 9)⟩]).2 = .previous 0 := by
  decide

/-- **C2 (amended).** The setter restores the previously installed
SIGTTOU action before returning when the attribute-change syscall
eventually succeeds; when it returns a failure it returns from inside
the retry loop and leaves the temporary handler installed. -/
theorem tcsetattr_nobg_restore_policy (prev : SigHandler) (attempts : List Attempt)
    (k : ErrKind) (g : Bool) :
    ((tcsetattr_nobg prev attempts).1 = .success →
      (tcsetattr_nobg prev attempts).2 = prev) ∧
    ((tcsetattr_nobg prev attempts).1 = .failure k g →
      (tcsetattr_nobg prev attempts).2 = .sigttouHook) := by
  unfold tcsetattr_nobg
  cases setattrLoop false attempts <;> simp

/-- Witness for the amended C2: success restores, failure leaves the
hook. -/
theorem tcsetattr_nobg_restore_policy_witness :
    (tcsetattr_nobg (.previous 3) [⟨false, none⟩]).2 = .previous 3 ∧
    (tcsetattr_nobg (.previous 3) [⟨false, some (.other 9)⟩]).2 = .sigttouHook :=
  ⟨(tcsetattr_nobg_restore_policy (.previous 3) [⟨false, none⟩] .interrupted false).1
     (by decide),
   (tcsetattr_nobg_restore_policy (.previous 3) [⟨false, some (.other 9)⟩] (.other 9) false).2
     (by decide)⟩

/-- **C3 (code bug).** The attributes `term_raw` applies when signal
support is requested never have `ISIG` set in the local modes —
`cfmakeraw` clears it and the source then sets `ISIG` in `c_cflag`
(the control flags) instead of `c_lflag`, so signal keys do not
generate signals, contradicting the source's own "Enable terminal
signals" comment and doc comment. -/
theorem term_raw_attrs_isig_misplaced (t : Termios) :
    (term_raw_attrs t true).c_lflag &&& ISIG = 0 ∧
    (term_raw_attrs t true).c_cflag &&& ISIG = ISIG := by
  constructor
  · show (t.c_lflag &&&
      u32not (ECHO ||| ECHONL ||| ICANON ||| ISIG ||| IEXTEN)) &&& ISIG = 0
    have h : u32not (ECHO ||| ECHONL ||| ICANON ||| ISIG ||| IEXTEN) &&& ISIG = 0 := by
      decide
    rw [Nat.land_assoc, h]
    simp
  · show (((t.c_cflag &&& u32not (CSIZE ||| PARENB)) ||| CS8) ||| ISIG) &&& ISIG = ISIG
    apply Nat.eq_of_testBit_eq
    intro i
    cases i with
    | zero => simp [Nat.testBit_lor, Nat.testBit_land, ISIG]
    | succ j =>
      simp only [Nat.testBit_lor, Nat.testBit_land, ISIG]
      simp [Nat.testBit_succ]

end Term

namespace Term

/-- Once `CHANGED` is set, no operation clears it or writes `OTERM`. -/
theorem termStep_changed_mono (st : TermState) (op : TermOp) (h : st.changed = true) :
    (termStep st op).1.changed = true ∧ (termStep st op).1.oterm = st.oterm := by
  obtain ⟨ch, ot⟩ := st
  dsimp only at h
  subst h
  cases op with
  | raw g a w =>
    cases ot with
    | none => simp [termStep, term_raw]
    | some t =>
      simp only [termStep, term_raw, term_raw_apply, if_true]
      cases setattrLoop false a <;> simp
  | restore a f =>
    cases ot with
    | none => simp [termStep, term_restore]
    | some t =>
      simp only [termStep, term_restore, if_true]
      cases setattrLoop false a <;> simp

/-- Running an operation list splits at an append. -/
theorem termTrace_append (ops more : List TermOp) (st : TermState) :
    termTrace st (ops ++ more) = termTrace (termTrace st ops) more := by
  induction ops generalizing st with
  | nil => rfl
  | cons op ops ih => simp [termTrace, ih]

/-- `termStep_changed_mono`, extended along a whole suffix. -/
theorem termTrace_changed_mono (more : List TermOp) (st : TermState)
    (h : st.changed = true) :
    (termTrace st more).changed = true ∧ (termTrace st more).oterm = st.oterm := by
  induction more generalizing st with
  | nil => exact ⟨h, rfl⟩
  | cons op ops ih =>
    have h1 := termStep_changed_mono st op h
    have h2 := ih (termStep st op).1 h1.1
    exact ⟨h2.1, h2.2.trans h1.2⟩

/-- **C6.** The snapshot slot: once Saved after some prefix of
operations, it stays Saved with the same snapshot through any further
operations; a Saved raw-mode entry ignores the current terminal readout
and applies the raw transform of the stored snapshot without
overwriting it; a restore in the Untouched state performs no terminal
mutation and returns success; a restore never modifies the slot; and a
raw-mode entry sets the Saved flag only if it was already set or its
attribute write succeeded. -/
theorem original_slot_lifecycle (ops more : List TermOp) (st : TermState)
    (a : List Attempt) (f w : Bool) (g g' : Except Nat Termios) (t : Termios) :
    ((termTrace initialTermState ops).changed = true →
      (termTrace initialTermState (ops ++ more)).changed = true ∧
      (termTrace initialTermState (ops ++ more)).oterm =
        (termTrace initialTermState ops).oterm) ∧
    (st.changed = true → term_raw st g a w = term_raw st g' a w) ∧
    (st.changed = true → st.oterm = some t →
      (term_raw st g a w).1.oterm = some t ∧
      (term_raw st g a w).2.2 = [term_raw_attrs t w]) ∧
    (st.changed = false → term_restore st a f = (st, .ok (), [])) ∧
    (term_restore st a f).1 = st ∧
    ((term_raw st g a w).1.changed = true →
      st.changed = true ∨ setattrLoop false a = .success) := by
  refine ⟨?_, ?_, ?_, ?_, ?_, ?_⟩
  · intro h
    rw [termTrace_append]
    exact termTrace_changed_mono more _ h
  · intro h
    simp [term_raw, h]
  · intro h h2
    simp only [term_raw, h, if_true, h2, term_raw_apply]
    cases setattrLoop false a <;> simp [h2]
  · intro h
    simp [term_restore, h]
  · rcases hc : st.changed with _ | _
    · simp [term_restore, hc]
    · simp only [term_restore, hc, if_true]
      cases st.oterm with
      | none => rfl
      | some t' => cases setattrLoop false a <;> rfl
  · intro h
    rcases hc : st.changed with _ | _
    · right
      simp only [term_raw, hc, if_false] at h
      cases g with
      | error e => simp at h; rw [hc] at h; exact absurd h (by simp)
      | ok t' =>
        simp only [term_raw_apply] at h
        cases hl : setattrLoop false a with
        | success => rfl
        | failure k gs => rw [hl] at h; simp at h
        | incomplete => rw [hl] at h; simp at h
    · exact Or.inl rfl

/-- Witness for C6: a successful raw entry saves the slot; a later
restore leaves it Saved; a Saved raw entry ignores the readout; an
Untouched restore is a success no-op. -/
theorem original_slot_lifecycle_witness :
    ((termTrace initialTermState
        ([TermOp.raw (.ok ⟨1, 2, 3, 4, [], 5, 6⟩) [⟨false, none⟩] false] ++
          [TermOp.restore [⟨false, none⟩] true])).changed = true ∧
      (termTrace initialTermState
        ([TermOp.raw (.ok ⟨1, 2, 3, 4, [], 5, 6⟩) [⟨false, none⟩] false] ++
          [TermOp.restore [⟨false, none⟩] true])).oterm =
        (termTrace initialTermState
          [TermOp.raw (.ok ⟨1, 2, 3, 4, [], 5, 6⟩) [⟨false, none⟩] false]).oterm) ∧
    term_raw ⟨true, some ⟨1, 2, 3, 4, [], 5, 6⟩⟩ (.ok ⟨9, 9, 9, 9, [], 9, 9⟩) [] true =
      term_raw ⟨true, some ⟨1, 2, 3, 4, [], 5, 6⟩⟩ (.error 3) [] true ∧
    ((term_raw ⟨true, some ⟨1, 2, 3, 4, [], 5, 6⟩⟩ (.ok ⟨9, 9, 9, 9, [], 9, 9⟩) [] true).1.oterm =
        some ⟨1, 2, 3, 4, [], 5, 6⟩ ∧
      (term_raw ⟨true, some ⟨1, 2, 3, 4, [], 5, 6⟩⟩ (.ok ⟨9, 9, 9, 9, [], 9, 9⟩) [] true).2.2 =
        [term_raw_attrs ⟨1, 2, 3, 4, [], 5, 6⟩ true]) ∧
    term_restore initialTermState [⟨false, none⟩] false = (initialTermState, .ok (), []) :=
  ⟨(original_slot_lifecycle [TermOp.raw (.ok ⟨1, 2, 3, 4, [], 5, 6⟩) [⟨false, none⟩] false]
      [TermOp.restore [⟨false, none⟩] true] ⟨true, some ⟨1, 2, 3, 4, [], 5, 6⟩⟩
      [] true true (.ok ⟨9, 9, 9, 9, [], 9, 9⟩) (.error 3) ⟨1, 2, 3, 4, [], 5, 6⟩).1
     (by decide),
   (original_slot_lifecycle [TermOp.raw (.ok ⟨1, 2, 3, 4, [], 5, 6⟩) [⟨false, none⟩] false]
      [TermOp.restore [⟨false, none⟩] true] ⟨true, some ⟨1, 2, 3, 4, [], 5, 6⟩⟩
      [] true true (.ok ⟨9, 9, 9, 9, [], 9, 9⟩) (.error 3) ⟨1, 2, 3, 4, [], 5, 6⟩).2.1 rfl,
   (original_slot_lifecycle [TermOp.raw (.ok ⟨1, 2, 3, 4, [], 5, 6⟩) [⟨false, none⟩] false]
      [TermOp.restore [⟨false, none⟩] true] ⟨true, some ⟨1, 2, 3, 4, [], 5, 6⟩⟩
      [] true true (.ok ⟨9, 9, 9, 9, [], 9, 9⟩) (.error 3) ⟨1, 2, 3, 4, [], 5, 6⟩).2.2.1
     rfl rfl,
   (original_slot_lifecycle [TermOp.raw (.ok ⟨1, 2, 3, 4, [], 5, 6⟩) [⟨false, none⟩] false]
      [TermOp.restore [⟨false, none⟩] true] initialTermState
      [⟨false, none⟩] false true (.ok ⟨9, 9, 9, 9, [], 9, 9⟩) (.error 3)
      ⟨1, 2, 3, 4, [], 5, 6⟩).2.2.2.1 rfl⟩

end Term
